import Mathlib

/-!
Shallow embedding of the CreaDIG evaluation gateway
(`backend/server.js`): a single `POST /analyze` handler that validates an
`imageBase64` field, sends a fixed rubric plus the image to an external
multimodal model with a strict JSON schema, extracts the first content
block of the response, parses its text as JSON and forwards the parsed
value verbatim, mapping every failure to a fixed JSON error body.

JavaScript JSON values are modelled by the inductive type `JValue`;
JavaScript numbers by `Rat` (the claims never depend on float semantics,
only on truthiness of numbers). The runtime's `JSON.parse` is an external
collaborator of the repository and is modelled as an explicit parameter
`jsonParse : String → Option JValue` of the handler (`none` = SyntaxError).
The single outbound call of a handler invocation is modelled by passing in
the `UpstreamOutcome` that the call produces (`failure` = the awaited
promise rejects) and recording the call itself, together with all
`console.error` logging, in an effect trace returned beside the HTTP
response.
-/

/-- A JavaScript/JSON value. Objects are ordered association lists, matching
the insertion order a JSON parse produces. -/
inductive JValue where
  | null
  | bool (b : Bool)
  | num (q : Rat)
  | str (s : String)
  | arr (elems : List JValue)
  | obj (fields : List (String × JValue))

/-- First-match association-list lookup used for JS property access. -/
def lookupField : List (String × JValue) → String → Option JValue
  | [], _ => none
  | (k, v) :: rest, key => if k = key then some v else lookupField rest key

/-- JS property access `v[key]`: `none` models `undefined` (also for any
non-object receiver, matching destructuring from a non-object body). -/
def getField (v : JValue) (key : String) : Option JValue :=
  match v with
  | .obj fields => lookupField fields key
  | _ => none

/-- The raw template-literal content of `buildPhotoPrompt` (lines 20-83 of
`backend/server.js`), before the trailing `.trim()`. Literal braces of the
source text are written `\x7b` / `\x7d`. -/
def photoPromptRaw : String :=
  "\nEres un jurado experto en fotografía digital y creatividad visual.\n\nANÁLISIS:\n1) COMPOSICIÓN ESPACIAL:\n   - Regla de los tercios (distribución de masas, sujeto en puntos fuertes, equilibrio visual).\n   - Posible uso de proporción áurea / espiral áurea (aunque sea aproximada).\n   - Horizontes: si aparecen, si están alineados, en tercio superior/inferior, etc.\n   - Líneas de fuga y direccionales (leading lines), regla de la mirada.\n   - Equilibrio entre primer plano, fondo, simplicidad vs. saturación.\n\n2) CREATIVIDAD DIGITAL:\n   - Novedad del punto de vista, encuadre, iluminación, color.\n   - Capacidad de la imagen para sugerir una historia, una emoción o un simbolismo.\n   - Uso original de las tecnologías digitales (edición sutil o evidente, filtros, efectos, collage, etc.).\n\n3) CALIDAD TÉCNICA BÁSICA (percepción subjetiva):\n   - Enfoque/aparente nitidez del motivo principal.\n   - Gestión de la luz (altos contrastes, contraluces, zonas quemadas u oscuras).\n   - Color (armonía cromática, uso intencional del color, dominante cromática).\n\n4) AJUSTE A LA SIGUIENTE DEFINICIÓN DE CREATIVIDAD DIGITAL:\n   \"Digital creativity is a multifaceted process in which new and valuable ideas, products, or solutions are generated through the use of digital technologies. This process involves the interaction between cognitive and socio-emotional skills, technological tools, and a collaborative environment, facilitating both self-expression and creative problem solving in various contexts (educational, professional, cultural, and social).\"\n\nESCALA:\n- Usa escala 0–10.\n- 5 = fotografía correcta pero convencional.\n- 8–10 = fotografía claramente creativa y muy bien compuesta para contexto educativo.\n- <4 = fotografía pobre en creatividad visual o claramente descuidada en composición.\n\nSALIDA:\nDevuelve EXCLUSIVAMENTE un JSON VÁLIDO que siga EXACTAMENTE este esquema:\n\n\x7b\n  \"overall_score\": number,           // 0–10, síntesis global\n  \"creativity_score\": number,        // 0–10, creatividad/expresión\n  \"composition_score\": number,       // 0–10, composición y encuadre\n  \"technical_score\": number,         // 0–10, calidad técnica básica\n  \"rules\": \x7b\n    \"rule_of_thirds\": \x7b\n      \"applied\": boolean,\n      \"score\": number,               // 0–10, uso de tercios\n      \"comment\": string\n    \x7d,\n    \"golden_ratio\": \x7b\n      \"applied\": boolean,\n      \"score\": number,\n      \"comment\": string\n    \x7d,\n    \"leading_lines\": \x7b\n      \"applied\": boolean,\n      \"score\": number,\n      \"comment\": string\n    \x7d,\n    \"light_and_shadow\": \x7b\n      \"score\": number,               // 0–10, calidad expresiva de luces y sombras\n      \"comment\": string\n    \x7d\n  \x7d,\n  \"text_explanation\": string         // explicación breve (5–8 líneas) de la valoración global\n\x7d\n\nNO añadas ningún texto fuera del JSON. NO expliques la escala fuera del JSON. SOLO el JSON.\n"

/-- `buildPhotoPrompt()`: the fixed rubric, the raw template literal with
`.trim()` applied, exactly as in the source. It takes no argument, so the
rubric is a per-process constant. -/
def buildPhotoPrompt : String := photoPromptRaw.trim

/-- One content part of the outbound multimodal message (source lines
107-116): either the rubric text or the image data URL. -/
inductive ContentPart where
  | input_text (text : String)
  | input_image (image_url : String)

/-- One message of the outbound `input` array (source lines 104-118). -/
structure InputMessage where
  role : String
  content : List ContentPart

/-- The argument object of `client.responses.create` (source lines 102-185). -/
structure OutboundRequest where
  model : String
  input : List InputMessage
  response_format : JValue

/-- The `rule_of_thirds` sub-schema (source lines 133-141). -/
def ruleOfThirdsSchema : JValue :=
  .obj [
    ("type", .str "object"),
    ("properties", .obj [
      ("applied", .obj [("type", .str "boolean")]),
      ("score", .obj [("type", .str "number")]),
      ("comment", .obj [("type", .str "string")])]),
    ("required", .arr [.str "applied", .str "score", .str "comment"])]

/-- The `golden_ratio` sub-schema (source lines 142-150); the source spells
out the same object literal as for `rule_of_thirds`. -/
def goldenRatioSchema : JValue :=
  .obj [
    ("type", .str "object"),
    ("properties", .obj [
      ("applied", .obj [("type", .str "boolean")]),
      ("score", .obj [("type", .str "number")]),
      ("comment", .obj [("type", .str "string")])]),
    ("required", .arr [.str "applied", .str "score", .str "comment"])]

/-- The `leading_lines` sub-schema (source lines 151-159); again the same
object literal. -/
def leadingLinesSchema : JValue :=
  .obj [
    ("type", .str "object"),
    ("properties", .obj [
      ("applied", .obj [("type", .str "boolean")]),
      ("score", .obj [("type", .str "number")]),
      ("comment", .obj [("type", .str "string")])]),
    ("required", .arr [.str "applied", .str "score", .str "comment"])]

/-- The `light_and_shadow` sub-schema (source lines 160-167): no `applied`
flag. -/
def lightAndShadowSchema : JValue :=
  .obj [
    ("type", .str "object"),
    ("properties", .obj [
      ("score", .obj [("type", .str "number")]),
      ("comment", .obj [("type", .str "string")])]),
    ("required", .arr [.str "score", .str "comment"])]

/-- The `rules` sub-schema (source lines 130-170). -/
def rulesSchema : JValue :=
  .obj [
    ("type", .str "object"),
    ("properties", .obj [
      ("rule_of_thirds", ruleOfThirdsSchema),
      ("golden_ratio", goldenRatioSchema),
      ("leading_lines", leadingLinesSchema),
      ("light_and_shadow", lightAndShadowSchema)]),
    ("required", .arr [.str "rule_of_thirds", .str "golden_ratio",
                       .str "leading_lines", .str "light_and_shadow"])]

/-- The top-level schema object (source lines 123-181). -/
def photoEvaluationSchemaBody : JValue :=
  .obj [
    ("type", .str "object"),
    ("properties", .obj [
      ("overall_score", .obj [("type", .str "number")]),
      ("creativity_score", .obj [("type", .str "number")]),
      ("composition_score", .obj [("type", .str "number")]),
      ("technical_score", .obj [("type", .str "number")]),
      ("rules", rulesSchema),
      ("text_explanation", .obj [("type", .str "string")])]),
    ("required", .arr [.str "overall_score", .str "creativity_score",
                       .str "composition_score", .str "technical_score",
                       .str "rules", .str "text_explanation"])]

/-- The `json_schema` object sent with every model call (source lines
121-183): name `PhotoEvaluation`, the nested schema, and `strict: true`. -/
def photoEvaluationJsonSchema : JValue :=
  .obj [
    ("name", .str "PhotoEvaluation"),
    ("schema", photoEvaluationSchemaBody),
    ("strict", .bool true)]

/-- The `response_format` field of the outbound request (source lines
119-184): a `json_schema`-typed output constraint. -/
def response_format : JValue :=
  .obj [("type", .str "json_schema"), ("json_schema", photoEvaluationJsonSchema)]

/-- The outbound request built for a given `imageBase64` string (source
lines 102-185): fixed model, one user message holding the rubric text and
the image, and the fixed schema constraint. -/
def buildOutboundRequest (imageBase64 : String) : OutboundRequest :=
  { model := "gpt-4.1-mini"
    input := [{ role := "user"
                content := [.input_text buildPhotoPrompt, .input_image imageBase64] }]
    response_format := response_format }

/-- One content item of the upstream response envelope. `type` and `text`
are `Option` because a JS object may lack either property (`undefined`). -/
structure UpstreamContentItem where
  type : Option String
  text : Option String

/-- One item of the envelope's `output` array; its `content` array may be
absent. -/
structure UpstreamOutputItem where
  content : Option (List UpstreamContentItem)

/-- The upstream response envelope; its `output` array may be absent. -/
structure UpstreamResponse where
  output : Option (List UpstreamOutputItem)

/-- `response.output?.[0]?.content?.[0]` (source line 187): optional
chaining through the envelope; `none` models `undefined`. -/
def extractFirstContent (r : UpstreamResponse) : Option UpstreamContentItem :=
  (r.output.bind List.head?).bind fun item => item.content.bind List.head?

/-- What the awaited `client.responses.create` call produces: a response
envelope, or a rejection (network error, provider outage, ...) that the
handler's top-level `catch` receives. -/
inductive UpstreamOutcome where
  | success (resp : UpstreamResponse)
  | failure

/-- An observable side effect of one handler invocation: the outbound model
call, or a `console.error` diagnostic log (identified by its fixed first
argument). -/
inductive Effect where
  | networkCall (req : OutboundRequest)
  | log (msg : String)

/-- An HTTP response as produced by `res.status(...).json(...)` /
`res.json(...)` (the latter defaults to status 200). -/
structure HttpResponse where
  status : Nat
  body : JValue

/-- The JSON error body `{ error: msg }` used by every failure branch. -/
def mkError (msg : String) : JValue := .obj [("error", .str msg)]

/-- Source lines 187-202: extract the first content item, require it to be
an `output_text` block, parse its text as JSON and forward the parsed
value, or answer with the corresponding fixed 500 error body.
`content.text.getD "undefined"` reflects `JSON.parse(undefined)`, which
stringifies its argument and then fails to parse. -/
def handleUpstream (jsonParse : String → Option JValue) (outbound : OutboundRequest) :
    UpstreamOutcome → HttpResponse × List Effect
  | .failure =>
      (⟨500, mkError "Error interno analizando la imagen."⟩,
       [.networkCall outbound, .log "Error en /analyze:"])
  | .success resp =>
      match extractFirstContent resp with
      | none =>
          (⟨500, mkError "Formato inesperado de respuesta del modelo."⟩,
           [.networkCall outbound, .log "Formato inesperado de respuesta:"])
      | some content =>
          if content.type ≠ some "output_text" then
            (⟨500, mkError "Formato inesperado de respuesta del modelo."⟩,
             [.networkCall outbound, .log "Formato inesperado de respuesta:"])
          else
            match jsonParse (content.text.getD "undefined") with
            | some parsed => (⟨200, parsed⟩, [.networkCall outbound])
            | none =>
                (⟨500, mkError "No se ha podido interpretar la respuesta de la IA."⟩,
                 [.networkCall outbound, .log "Error parseando JSON devuelto por el modelo:"])

/-- The `POST /analyze` handler (source lines 87-207) as a function of the
parsed request body, the JSON parser, and the outcome of the single
outbound call. `const { imageBase64 } = req.body` is the `getField`
lookup; `!imageBase64 || typeof imageBase64 !== "string"` rejects a
missing field, every non-string value, and the (falsy) empty string; then
`imageBase64.length > 4_000_000` rejects oversized payloads. The trailing
`catch` is the `.failure` branch of `handleUpstream`; no other statement
of the handler body can throw, so the function is total. -/
def analyzeHandler (jsonParse : String → Option JValue)
    (body : JValue) (upstream : UpstreamOutcome) : HttpResponse × List Effect :=
  match getField body "imageBase64" with
  | some (.str imageBase64) =>
      if imageBase64 = "" then
        (⟨400, mkError "Falta imageBase64 (dataURL base64 de la imagen)."⟩, [])
      else if imageBase64.length > 4000000 then
        (⟨400, mkError "La imagen es demasiado grande."⟩, [])
      else
        handleUpstream jsonParse (buildOutboundRequest imageBase64) upstream
  | _ =>
      (⟨400, mkError "Falta imageBase64 (dataURL base64 de la imagen)."⟩, [])

/-- Number of outbound model calls recorded in an effect trace. -/
def numNetworkCalls (effs : List Effect) : Nat :=
  (effs.filter fun e => match e with | .networkCall _ => true | .log _ => false).length

/-- Whether an effect is a diagnostic log. -/
def Effect.isLog : Effect → Bool
  | .log _ => true
  | .networkCall _ => false

/-- The response body is a JSON object carrying a string `error` field. -/
def isObjWithStringError (v : JValue) : Bool :=
  match getField v "error" with
  | some (.str _) => true
  | _ => false

/-- Whether the envelope contains a text output block anywhere in its
`output` / `content` arrays. -/
def hasTextOutputBlock (r : UpstreamResponse) : Bool :=
  match r.output with
  | none => false
  | some items => items.any fun item =>
      match item.content with
      | none => false
      | some cs => cs.any fun c => c.type = some "output_text"

/-! ### Concrete stub values

Stub instantiations in the spirit of the spec's "stubbed upstream" test
properties: a parser recognising only the empty object literal, a
well-formed request body, and canned upstream envelopes. They are used to
instantiate the universally quantified theorems below at concrete inputs. -/

/-- Stub standing in for the runtime JSON parser in concrete
instantiations: recognises exactly the empty object literal. -/
def stubParse : String → Option JValue :=
  fun s => if s = "\x7b\x7d" then some (.obj []) else none

/-- A text output block whose text is the empty object literal. -/
def stubTextItem : UpstreamContentItem :=
  { type := some "output_text", text := some "\x7b\x7d" }

/-- An envelope carrying `stubTextItem` at `output[0].content[0]`. -/
def stubGoodResponse : UpstreamResponse :=
  { output := some [{ content := some [stubTextItem] }] }

/-- A text output block whose text is not valid JSON for `stubParse`. -/
def stubBadJsonItem : UpstreamContentItem :=
  { type := some "output_text", text := some "not json" }

/-- An envelope carrying `stubBadJsonItem` at `output[0].content[0]`. -/
def stubBadJsonResponse : UpstreamResponse :=
  { output := some [{ content := some [stubBadJsonItem] }] }

/-- A well-formed request body with a short data-URL image string. -/
def stubBody : JValue := .obj [("imageBase64", .str "data:image/png;base64,AAAA")]

/-- A request body whose `imageBase64` is the (falsy) empty string. -/
def emptyImageBody : JValue := .obj [("imageBase64", .str "")]

/-- An ASCII string of exactly 4,000,000 characters. -/
def fourMillionChars : String := String.mk (List.replicate 4000000 'a')

/-- An ASCII string of 4,000,001 characters. -/
def overFourMillionChars : String := String.mk (List.replicate 4000001 'a')

/-- A request body carrying `fourMillionChars`. -/
def boundaryBody : JValue := .obj [("imageBase64", .str fourMillionChars)]

/-- A request body carrying `overFourMillionChars`. -/
def oversizedBody : JValue := .obj [("imageBase64", .str overFourMillionChars)]

theorem fourMillionChars_length : fourMillionChars.length = 4000000 :=
  List.length_replicate 4000000 'a'

theorem overFourMillionChars_length : overFourMillionChars.length = 4000001 :=
  List.length_replicate 4000001 'a'

/-- On a validated request the handler is exactly the upstream-processing
stage applied to the outbound request built from the image string. -/
theorem analyzeHandler_valid (jsonParse : String → Option JValue) (body : JValue)
    (upstream : UpstreamOutcome) (s : String)
    (hf : getField body "imageBase64" = some (.str s)) (hne : s ≠ "")
    (hlen : ¬ s.length > 4000000) :
    analyzeHandler jsonParse body upstream =
      handleUpstream jsonParse (buildOutboundRequest s) upstream := by
  simp [analyzeHandler, hf, hne, hlen]

/-- C2: for every request body missing `imageBase64` or carrying a
non-string value there, the response has status 400, its body is a JSON
object with a string `error` field, and no outbound model call is made. -/
theorem analyze_missing_or_nonstring_400 (jsonParse : String → Option JValue)
    (body : JValue) (upstream : UpstreamOutcome)
    (h : ∀ s : String, getField body "imageBase64" ≠ some (.str s)) :
    (analyzeHandler jsonParse body upstream).1.status = 400 ∧
    isObjWithStringError (analyzeHandler jsonParse body upstream).1.body = true ∧
    numNetworkCalls (analyzeHandler jsonParse body upstream).2 = 0 := by
  unfold analyzeHandler
  cases hg : getField body "imageBase64" with
  | none => simp [isObjWithStringError, getField, lookupField, mkError, numNetworkCalls]
  | some v =>
    cases v with
    | str s => exact absurd hg (h s)
    | null => simp [isObjWithStringError, getField, lookupField, mkError, numNetworkCalls]
    | bool b => simp [isObjWithStringError, getField, lookupField, mkError, numNetworkCalls]
    | num q => simp [isObjWithStringError, getField, lookupField, mkError, numNetworkCalls]
    | arr elems => simp [isObjWithStringError, getField, lookupField, mkError, numNetworkCalls]
    | obj fields => simp [isObjWithStringError, getField, lookupField, mkError, numNetworkCalls]

/-- Witness: the empty-object body has no `imageBase64` field and is
answered 400 with an error body and no outbound call. -/
theorem analyze_missing_or_nonstring_400_witness :
    (∀ s : String, getField (JValue.obj []) "imageBase64" ≠ some (.str s)) ∧
    ((analyzeHandler stubParse (JValue.obj []) (.success stubGoodResponse)).1.status = 400 ∧
     isObjWithStringError
       (analyzeHandler stubParse (JValue.obj []) (.success stubGoodResponse)).1.body = true ∧
     numNetworkCalls
       (analyzeHandler stubParse (JValue.obj []) (.success stubGoodResponse)).2 = 0) :=
  have h : ∀ s : String, getField (JValue.obj []) "imageBase64" ≠ some (.str s) := by
    intro s hs
    simp [getField, lookupField] at hs
  ⟨h, analyze_missing_or_nonstring_400 stubParse (JValue.obj []) (.success stubGoodResponse) h⟩

/-- C3: for every request whose `imageBase64` is a string longer than
4,000,000 characters, regardless of its content, the response has status
400 with an error body and no outbound model call is made. -/
theorem analyze_oversized_400 (jsonParse : String → Option JValue) (body : JValue)
    (upstream : UpstreamOutcome) (s : String)
    (hf : getField body "imageBase64" = some (.str s))
    (hlen : s.length > 4000000) :
    (analyzeHandler jsonParse body upstream).1.status = 400 ∧
    isObjWithStringError (analyzeHandler jsonParse body upstream).1.body = true ∧
    numNetworkCalls (analyzeHandler jsonParse body upstream).2 = 0 := by
  have hne : s ≠ "" := by
    intro he
    rw [he] at hlen
    exact absurd hlen (by decide)
  simp only [analyzeHandler, hf]
  simp [hne, hlen, isObjWithStringError, getField, lookupField, mkError, numNetworkCalls]

/-- Witness: a 4,000,001-character string is rejected with 400, an error
body, and no outbound call. -/
theorem analyze_oversized_400_witness :
    (getField oversizedBody "imageBase64" = some (.str overFourMillionChars) ∧
     overFourMillionChars.length > 4000000) ∧
    ((analyzeHandler stubParse oversizedBody (.success stubGoodResponse)).1.status = 400 ∧
     isObjWithStringError
       (analyzeHandler stubParse oversizedBody (.success stubGoodResponse)).1.body = true ∧
     numNetworkCalls
       (analyzeHandler stubParse oversizedBody (.success stubGoodResponse)).2 = 0) :=
  have hlen : overFourMillionChars.length > 4000000 := by
    rw [overFourMillionChars_length]
    exact Nat.lt_succ_self 4000000
  ⟨⟨rfl, hlen⟩,
   analyze_oversized_400 stubParse oversizedBody (.success stubGoodResponse)
     overFourMillionChars rfl hlen⟩

/-- C10: a request whose `imageBase64` string has length exactly 4,000,000
passes the size check: the handler makes its outbound call (exactly one)
and the response is never the 400 rejection. -/
theorem analyze_length_boundary_proceeds (jsonParse : String → Option JValue)
    (body : JValue) (upstream : UpstreamOutcome) (s : String)
    (hf : getField body "imageBase64" = some (.str s))
    (hlen : s.length = 4000000) :
    numNetworkCalls (analyzeHandler jsonParse body upstream).2 = 1 ∧
    (analyzeHandler jsonParse body upstream).1.status ≠ 400 := by
  have hne : s ≠ "" := by
    intro he
    rw [he] at hlen
    exact absurd hlen (by decide)
  have hgt : ¬ s.length > 4000000 := by omega
  have h54 : (500 : Nat) ≠ 400 := by decide
  have h24 : (200 : Nat) ≠ 400 := by decide
  rw [analyzeHandler_valid jsonParse body upstream s hf hne hgt]
  cases upstream with
  | failure => exact ⟨rfl, h54⟩
  | success resp =>
    simp only [handleUpstream]
    cases hc : extractFirstContent resp with
    | none => exact ⟨rfl, h54⟩
    | some c =>
      dsimp only
      by_cases ht : c.type = some "output_text"
      · rw [if_neg (not_not_intro ht)]
        cases hp : jsonParse (c.text.getD "undefined") with
        | none => exact ⟨rfl, h54⟩
        | some v => exact ⟨rfl, h24⟩
      · rw [if_pos ht]
        exact ⟨rfl, h54⟩

/-- Witness: a 4,000,000-character string proceeds to the upstream call
(here: an upstream failure), with exactly one call and no 400. -/
theorem analyze_length_boundary_proceeds_witness :
    (getField boundaryBody "imageBase64" = some (.str fourMillionChars) ∧
     fourMillionChars.length = 4000000) ∧
    (numNetworkCalls (analyzeHandler stubParse boundaryBody .failure).2 = 1 ∧
     (analyzeHandler stubParse boundaryBody .failure).1.status ≠ 400) :=
  ⟨⟨rfl, fourMillionChars_length⟩,
   analyze_length_boundary_proceeds stubParse boundaryBody .failure
     fourMillionChars rfl fourMillionChars_length⟩

/-- An envelope with no `output` array at all (no text block anywhere). -/
def stubNoTextResponse : UpstreamResponse := { output := none }

/-- C1 (amended: a well-formed request additionally requires `imageBase64`
to be non-empty, since the empty string is falsy and rejected with 400):
for every well-formed request and every upstream envelope whose extracted
text block parses as JSON, the gateway answers HTTP 200 with exactly the
parsed value, unchanged and unvalidated. -/
theorem analyze_wellformed_roundtrip (jsonParse : String → Option JValue)
    (body : JValue) (resp : UpstreamResponse) (c : UpstreamContentItem)
    (s t : String) (v : JValue)
    (hf : getField body "imageBase64" = some (.str s)) (hne : s ≠ "")
    (hlen : s.length ≤ 4000000)
    (hc : extractFirstContent resp = some c)
    (ht : c.type = some "output_text")
    (htx : c.text = some t)
    (hp : jsonParse t = some v) :
    (analyzeHandler jsonParse body (.success resp)).1 = ⟨200, v⟩ := by
  have hgt : ¬ s.length > 4000000 := by omega
  rw [analyzeHandler_valid jsonParse body (.success resp) s hf hne hgt]
  simp only [handleUpstream, hc]
  rw [if_neg (not_not_intro ht)]
  simp [htx, hp]

/-- Witness: the stub body and stub envelope produce HTTP 200 carrying the
parse of the upstream text block. -/
theorem analyze_wellformed_roundtrip_witness :
    (getField stubBody "imageBase64" = some (.str "data:image/png;base64,AAAA") ∧
     ("data:image/png;base64,AAAA" : String) ≠ "" ∧
     ("data:image/png;base64,AAAA" : String).length ≤ 4000000 ∧
     extractFirstContent stubGoodResponse = some stubTextItem ∧
     stubParse "\x7b\x7d" = some (.obj [])) ∧
    (analyzeHandler stubParse stubBody (.success stubGoodResponse)).1 = ⟨200, .obj []⟩ :=
  ⟨⟨rfl, by decide, by decide, rfl, rfl⟩,
   analyze_wellformed_roundtrip stubParse stubBody stubGoodResponse stubTextItem
     "data:image/png;base64,AAAA" "\x7b\x7d" (.obj [])
     rfl (by decide) (by decide) rfl rfl rfl rfl⟩

/-- Counterexample to C1 as stated: the empty string is present, is a
string, and has length at most 4,000,000, and the stubbed upstream text
parses as JSON, yet the gateway answers 400, not 200 (the `!imageBase64`
truthiness check rejects the falsy empty string). -/
theorem analyze_emptystring_rejected_cex :
    (getField emptyImageBody "imageBase64" = some (.str "") ∧
     ("" : String).length ≤ 4000000 ∧
     extractFirstContent stubGoodResponse = some stubTextItem ∧
     stubTextItem.type = some "output_text" ∧
     stubParse "\x7b\x7d" = some (.obj [])) ∧
    (analyzeHandler stubParse emptyImageBody (.success stubGoodResponse)).1.status = 400 ∧
    (analyzeHandler stubParse emptyImageBody (.success stubGoodResponse)).1.status ≠ 200 :=
  ⟨⟨rfl, by decide, rfl, rfl, rfl⟩, rfl, by decide⟩

/-- C5: whenever the extracted text block's content fails to parse as
JSON, the gateway answers exactly the fixed 500 `UpstreamParseError`
body — no partial result is forwarded. -/
theorem analyze_upstream_parse_error_500 (jsonParse : String → Option JValue)
    (body : JValue) (resp : UpstreamResponse) (c : UpstreamContentItem)
    (s t : String)
    (hf : getField body "imageBase64" = some (.str s)) (hne : s ≠ "")
    (hlen : s.length ≤ 4000000)
    (hc : extractFirstContent resp = some c)
    (ht : c.type = some "output_text")
    (htx : c.text = some t)
    (hp : jsonParse t = none) :
    (analyzeHandler jsonParse body (.success resp)).1 =
      ⟨500, mkError "No se ha podido interpretar la respuesta de la IA."⟩ := by
  have hgt : ¬ s.length > 4000000 := by omega
  rw [analyzeHandler_valid jsonParse body (.success resp) s hf hne hgt]
  simp only [handleUpstream, hc]
  rw [if_neg (not_not_intro ht)]
  simp [htx, hp]

/-- Witness: an upstream text block that is not valid JSON for the stub
parser yields the fixed parse-error body. -/
theorem analyze_upstream_parse_error_500_witness :
    (extractFirstContent stubBadJsonResponse = some stubBadJsonItem ∧
     stubBadJsonItem.type = some "output_text" ∧
     stubParse "not json" = none) ∧
    (analyzeHandler stubParse stubBody (.success stubBadJsonResponse)).1 =
      ⟨500, mkError "No se ha podido interpretar la respuesta de la IA."⟩ :=
  ⟨⟨rfl, rfl, rfl⟩,
   analyze_upstream_parse_error_500 stubParse stubBody stubBadJsonResponse stubBadJsonItem
     "data:image/png;base64,AAAA" "not json" rfl (by decide) (by decide) rfl rfl rfl rfl⟩

/-- C4: the handler examines `output[0].content[0]`; whenever the envelope
contains no text output block at all it answers exactly the fixed 500
`UpstreamFormatError` body (totality of `analyzeHandler` models "does not
throw uncaught"), and whenever that first block is text-bearing the
response is determined by JSON-parsing precisely that block's text. -/
theorem analyze_first_text_block_contract (jsonParse : String → Option JValue)
    (body : JValue) (resp : UpstreamResponse) (s : String)
    (hf : getField body "imageBase64" = some (.str s)) (hne : s ≠ "")
    (hlen : s.length ≤ 4000000) :
    (hasTextOutputBlock resp = false →
      (analyzeHandler jsonParse body (.success resp)).1 =
        ⟨500, mkError "Formato inesperado de respuesta del modelo."⟩) ∧
    (∀ c t, extractFirstContent resp = some c → c.type = some "output_text" →
      c.text = some t →
      (analyzeHandler jsonParse body (.success resp)).1 =
        match jsonParse t with
        | some v => ⟨200, v⟩
        | none => ⟨500, mkError "No se ha podido interpretar la respuesta de la IA."⟩) := by
  have hgt : ¬ s.length > 4000000 := by omega
  rw [analyzeHandler_valid jsonParse body (.success resp) s hf hne hgt]
  constructor
  · intro hnb
    have hnt : ∀ c, extractFirstContent resp = some c → ¬ c.type = some "output_text" := by
      intro c hc hct
      obtain ⟨output⟩ := resp
      cases output with
      | none => simp [extractFirstContent] at hc
      | some items =>
        cases items with
        | nil => simp [extractFirstContent] at hc
        | cons item rest =>
          obtain ⟨content⟩ := item
          cases content with
          | none => simp [extractFirstContent] at hc
          | some cs =>
            cases cs with
            | nil => simp [extractFirstContent] at hc
            | cons c0 cs' =>
              simp [extractFirstContent] at hc
              subst hc
              simp [hasTextOutputBlock, hct] at hnb
    simp only [handleUpstream]
    cases hcx : extractFirstContent resp with
    | none => rfl
    | some c =>
      dsimp only
      rw [if_pos (hnt c hcx)]
  · intro c t hc ht htx
    simp only [handleUpstream, hc]
    rw [if_neg (not_not_intro ht), htx]
    simp only [Option.getD_some]
    cases hp : jsonParse t with
    | some v => rfl
    | none => rfl

/-- Witness: an envelope without any `output` array is answered with the
fixed 500 format-error body. -/
theorem analyze_first_text_block_contract_witness :
    (getField stubBody "imageBase64" = some (.str "data:image/png;base64,AAAA") ∧
     hasTextOutputBlock stubNoTextResponse = false) ∧
    (analyzeHandler stubParse stubBody (.success stubNoTextResponse)).1 =
      ⟨500, mkError "Formato inesperado de respuesta del modelo."⟩ :=
  ⟨⟨rfl, rfl⟩,
   (analyze_first_text_block_contract stubParse stubBody stubNoTextResponse
      "data:image/png;base64,AAAA" rfl (by decide) (by decide)).1 rfl⟩

/-- C6: every response of the handler is either the 200 success or one of
the five fixed `{ error: string }` bodies (four explicit branches plus the
generic top-level catch) with status 400/500, and an upstream rejection on
a validated request is caught and mapped to exactly the fixed generic 500
body. The error bodies are string constants, so no stack trace or
upstream detail can appear in a response, and totality of `analyzeHandler`
models that no exception escapes to the process level. -/
theorem analyze_failures_fixed_error_bodies (jsonParse : String → Option JValue)
    (body : JValue) (upstream : UpstreamOutcome) :
    ((analyzeHandler jsonParse body upstream).1.status = 200 ∨
      (((analyzeHandler jsonParse body upstream).1.status = 400 ∨
        (analyzeHandler jsonParse body upstream).1.status = 500) ∧
       ((analyzeHandler jsonParse body upstream).1.body =
          mkError "Falta imageBase64 (dataURL base64 de la imagen)." ∨
        (analyzeHandler jsonParse body upstream).1.body =
          mkError "La imagen es demasiado grande." ∨
        (analyzeHandler jsonParse body upstream).1.body =
          mkError "Formato inesperado de respuesta del modelo." ∨
        (analyzeHandler jsonParse body upstream).1.body =
          mkError "No se ha podido interpretar la respuesta de la IA." ∨
        (analyzeHandler jsonParse body upstream).1.body =
          mkError "Error interno analizando la imagen."))) ∧
    (∀ s : String, getField body "imageBase64" = some (.str s) → s ≠ "" →
      ¬ s.length > 4000000 →
      (analyzeHandler jsonParse body .failure).1 =
        ⟨500, mkError "Error interno analizando la imagen."⟩) := by
  constructor
  · unfold analyzeHandler
    cases hg : getField body "imageBase64" with
    | none => right; exact ⟨Or.inl rfl, Or.inl rfl⟩
    | some v =>
      cases v with
      | null => right; exact ⟨Or.inl rfl, Or.inl rfl⟩
      | bool b => right; exact ⟨Or.inl rfl, Or.inl rfl⟩
      | num q => right; exact ⟨Or.inl rfl, Or.inl rfl⟩
      | arr elems => right; exact ⟨Or.inl rfl, Or.inl rfl⟩
      | obj fields => right; exact ⟨Or.inl rfl, Or.inl rfl⟩
      | str s =>
        dsimp only
        by_cases h1 : s = ""
        · rw [if_pos h1]
          right; exact ⟨Or.inl rfl, Or.inl rfl⟩
        · rw [if_neg h1]
          by_cases h2 : s.length > 4000000
          · rw [if_pos h2]
            right; exact ⟨Or.inl rfl, Or.inr (Or.inl rfl)⟩
          · rw [if_neg h2]
            cases upstream with
            | failure =>
              right; exact ⟨Or.inr rfl, Or.inr (Or.inr (Or.inr (Or.inr rfl)))⟩
            | success resp =>
              simp only [handleUpstream]
              cases hcx : extractFirstContent resp with
              | none => right; exact ⟨Or.inr rfl, Or.inr (Or.inr (Or.inl rfl))⟩
              | some c =>
                dsimp only
                by_cases ht : c.type = some "output_text"
                · rw [if_neg (not_not_intro ht)]
                  cases hp : jsonParse (c.text.getD "undefined") with
                  | some v => left; rfl
                  | none =>
                    right; exact ⟨Or.inr rfl, Or.inr (Or.inr (Or.inr (Or.inl rfl)))⟩
                · rw [if_pos ht]
                  right; exact ⟨Or.inr rfl, Or.inr (Or.inr (Or.inl rfl))⟩
  · intro s hf hne hgt
    rw [analyzeHandler_valid jsonParse body .failure s hf hne hgt]
    rfl

/-- Witness: an upstream rejection on the stub request is mapped to the
fixed generic 500 body. -/
theorem analyze_failures_fixed_error_bodies_witness :
    (getField stubBody "imageBase64" = some (.str "data:image/png;base64,AAAA") ∧
     ("data:image/png;base64,AAAA" : String) ≠ "" ∧
     ¬ ("data:image/png;base64,AAAA" : String).length > 4000000) ∧
    (analyzeHandler stubParse stubBody .failure).1 =
      ⟨500, mkError "Error interno analizando la imagen."⟩ :=
  ⟨⟨rfl, by decide, by decide⟩,
   (analyze_failures_fixed_error_bodies stubParse stubBody .failure).2
     "data:image/png;base64,AAAA" rfl (by decide) (by decide)⟩

/-- The non-image portion of an outbound message: its role together with
its non-image content parts. -/
def nonImagePortion (m : InputMessage) : String × List ContentPart :=
  (m.role, m.content.filter fun p => match p with | .input_image _ => false | _ => true)

/-- C7: the non-image (text) portion of the outbound multimodal message is
byte-identical across any two requests — it is always the single fixed
rubric text block — and the model name and schema constraint are likewise
constant. -/
theorem rubric_constant_across_requests (s1 s2 : String) :
    (buildOutboundRequest s1).model = (buildOutboundRequest s2).model ∧
    (buildOutboundRequest s1).response_format = (buildOutboundRequest s2).response_format ∧
    (buildOutboundRequest s1).input.map nonImagePortion =
      (buildOutboundRequest s2).input.map nonImagePortion ∧
    (buildOutboundRequest s1).input.map nonImagePortion =
      [("user", [.input_text buildPhotoPrompt])] :=
  ⟨rfl, rfl, rfl, rfl⟩

/-- C9 (amended: restricted to invocations that pass request validation;
the caught-error log joins the diagnostic logs): a validated invocation
records exactly one outbound model call — the request built from its
image string — and every other recorded effect is one of the three fixed
diagnostic logs. -/
theorem analyze_single_call_per_validated_invocation (jsonParse : String → Option JValue)
    (body : JValue) (upstream : UpstreamOutcome) (s : String)
    (hf : getField body "imageBase64" = some (.str s)) (hne : s ≠ "")
    (hlen : ¬ s.length > 4000000) :
    numNetworkCalls (analyzeHandler jsonParse body upstream).2 = 1 ∧
    Effect.networkCall (buildOutboundRequest s) ∈ (analyzeHandler jsonParse body upstream).2 ∧
    (∀ e ∈ (analyzeHandler jsonParse body upstream).2,
      e = Effect.networkCall (buildOutboundRequest s) ∨
      e = Effect.log "Formato inesperado de respuesta:" ∨
      e = Effect.log "Error parseando JSON devuelto por el modelo:" ∨
      e = Effect.log "Error en /analyze:") := by
  rw [analyzeHandler_valid jsonParse body upstream s hf hne hlen]
  cases upstream with
  | failure =>
    refine ⟨rfl, by simp [handleUpstream], ?_⟩
    intro e he
    simp [handleUpstream] at he
    tauto
  | success resp =>
    simp only [handleUpstream]
    cases hcx : extractFirstContent resp with
    | none =>
      refine ⟨rfl, by simp, ?_⟩
      intro e he
      simp at he
      tauto
    | some c =>
      dsimp only
      by_cases ht : c.type = some "output_text"
      · rw [if_neg (not_not_intro ht)]
        cases hp : jsonParse (c.text.getD "undefined") with
        | some v =>
          refine ⟨rfl, by simp, ?_⟩
          intro e he
          simp at he
          tauto
        | none =>
          refine ⟨rfl, by simp, ?_⟩
          intro e he
          simp at he
          tauto
      · rw [if_pos ht]
        refine ⟨rfl, by simp, ?_⟩
        intro e he
        simp at he
        tauto

/-- Witness: the stub request records exactly one outbound call. -/
theorem analyze_single_call_witness :
    (getField stubBody "imageBase64" = some (.str "data:image/png;base64,AAAA") ∧
     ("data:image/png;base64,AAAA" : String) ≠ "") ∧
    numNetworkCalls (analyzeHandler stubParse stubBody (.success stubGoodResponse)).2 = 1 :=
  ⟨⟨rfl, by decide⟩,
   (analyze_single_call_per_validated_invocation stubParse stubBody
      (.success stubGoodResponse) "data:image/png;base64,AAAA"
      rfl (by decide) (by decide)).1⟩

/-- Counterexample to C9 as stated: an invocation whose request fails
validation (missing `imageBase64`) performs zero outbound calls, not
exactly one. -/
theorem analyze_rejected_request_zero_calls_cex :
    numNetworkCalls (analyzeHandler stubParse (JValue.obj []) (.success stubGoodResponse)).2 = 0 ∧
    (0 : Nat) ≠ 1 :=
  ⟨rfl, by decide⟩

/-- The key list of a JSON object. -/
def objKeys : JValue → List String
  | .obj fields => fields.map Prod.fst
  | _ => []

/-- The declared property names of a JSON-schema object node. -/
def schemaPropNames (s : JValue) : List String :=
  match getField s "properties" with
  | some props => objKeys props
  | _ => []

/-- The `required` list of a JSON-schema object node. -/
def schemaRequired (s : JValue) : List String :=
  match getField s "required" with
  | some (.arr elems) => elems.filterMap fun e => match e with | .str k => some k | _ => none
  | _ => []

/-- The sub-schema a JSON-schema object node declares for a property. -/
def schemaProp (s : JValue) (field : String) : Option JValue :=
  match getField s "properties" with
  | some props => getField props field
  | _ => none

/-- The declared `type` of a property of a JSON-schema object node. -/
def schemaPropType (s : JValue) (field : String) : Option JValue :=
  match schemaProp s field with
  | some sub => getField sub "type"
  | _ => none

/-- C8: the schema constraint sent with every model call declares exactly
the fields and nesting of EvaluationResult — four numeric top-level
scores, the four named rule sub-objects with their typed fields
(`light_and_shadow` without an `applied` flag), and a string
`text_explanation` — marks every declared field required at every level,
and sets `strict: true` on the `json_schema` constraint, the flag by which
the model call tolerates no additional properties. -/
theorem photo_schema_strict_exact_fields :
    getField response_format "type" = some (.str "json_schema") ∧
    getField response_format "json_schema" = some photoEvaluationJsonSchema ∧
    getField photoEvaluationJsonSchema "strict" = some (.bool true) ∧
    getField photoEvaluationJsonSchema "schema" = some photoEvaluationSchemaBody ∧
    schemaPropNames photoEvaluationSchemaBody =
      ["overall_score", "creativity_score", "composition_score", "technical_score",
       "rules", "text_explanation"] ∧
    schemaRequired photoEvaluationSchemaBody =
      ["overall_score", "creativity_score", "composition_score", "technical_score",
       "rules", "text_explanation"] ∧
    schemaPropType photoEvaluationSchemaBody "overall_score" = some (.str "number") ∧
    schemaPropType photoEvaluationSchemaBody "creativity_score" = some (.str "number") ∧
    schemaPropType photoEvaluationSchemaBody "composition_score" = some (.str "number") ∧
    schemaPropType photoEvaluationSchemaBody "technical_score" = some (.str "number") ∧
    schemaPropType photoEvaluationSchemaBody "text_explanation" = some (.str "string") ∧
    schemaProp photoEvaluationSchemaBody "rules" = some rulesSchema ∧
    schemaPropNames rulesSchema =
      ["rule_of_thirds", "golden_ratio", "leading_lines", "light_and_shadow"] ∧
    schemaRequired rulesSchema =
      ["rule_of_thirds", "golden_ratio", "leading_lines", "light_and_shadow"] ∧
    schemaProp rulesSchema "rule_of_thirds" = some ruleOfThirdsSchema ∧
    schemaProp rulesSchema "golden_ratio" = some goldenRatioSchema ∧
    schemaProp rulesSchema "leading_lines" = some leadingLinesSchema ∧
    schemaProp rulesSchema "light_and_shadow" = some lightAndShadowSchema ∧
    schemaPropNames ruleOfThirdsSchema = ["applied", "score", "comment"] ∧
    schemaRequired ruleOfThirdsSchema = ["applied", "score", "comment"] ∧
    schemaPropType ruleOfThirdsSchema "applied" = some (.str "boolean") ∧
    schemaPropType ruleOfThirdsSchema "score" = some (.str "number") ∧
    schemaPropType ruleOfThirdsSchema "comment" = some (.str "string") ∧
    goldenRatioSchema = ruleOfThirdsSchema ∧
    leadingLinesSchema = ruleOfThirdsSchema ∧
    schemaPropNames lightAndShadowSchema = ["score", "comment"] ∧
    schemaRequired lightAndShadowSchema = ["score", "comment"] ∧
    schemaPropType lightAndShadowSchema "score" = some (.str "number") ∧
    schemaPropType lightAndShadowSchema "comment" = some (.str "string") ∧
    schemaProp lightAndShadowSchema "applied" = none :=
  ⟨rfl, rfl, rfl, rfl, rfl, rfl, rfl, rfl, rfl, rfl, rfl, rfl, rfl, rfl, rfl,
   rfl, rfl, rfl, rfl, rfl, rfl, rfl, rfl, rfl, rfl, rfl, rfl, rfl, rfl, rfl⟩
